import Mathlib

/-!
Shallow embedding of the CryptoReportBot sources (`init.py`,
`telegram_conflict_breaker.py`) and proofs checking the repository's
natural-language specification against them.

Conventions:
* Python numbers produced by `float(...)` are modelled as exact rationals `ℚ`
  (all literals relevant here are exactly representable).
* Python `dict`-based `context.user_data` is modelled as the `UserData`
  structure with `Option` fields (`none` = key absent / value `None`).
* Fallible handler code is modelled with `Except PyError`; an uncaught Python
  exception is the `.error` case.
* Network interaction is modelled by the response outcome the remote side
  produces; the functions under test are pure in that outcome.
-/

/-! ## Python `float` on decimal literals

`pyFloat` models the builtin `float(str)` on the decimal-literal part of its
grammar: optional surrounding ASCII whitespace, optional sign, digits with an
optional fractional part, and an optional `e`/`E` exponent.  The `inf`/`nan`
words and digit-group underscores are outside the modelled fragment (no price
input in this development uses them).  Internal spaces are rejected, exactly
as `float` rejects them. -/

def isPyWs (ch : Char) : Bool :=
  ch == ' ' || ch == '\t' || ch == '\n' || ch == '\r' || ch == '\x0b' || ch == '\x0c'

def trimWs (cs : List Char) : List Char :=
  ((cs.dropWhile isPyWs).reverse.dropWhile isPyWs).reverse

def allDigits (cs : List Char) : Bool := cs.all (fun ch => ch.isDigit)

def digitsVal (cs : List Char) : Nat :=
  cs.foldl (fun a ch => a * 10 + (ch.toNat - 48)) 0

/-- Split a character list at every character satisfying `p` (the separators
are dropped); an empty input yields one empty segment, like Python's
splitting behaviour used to model the literal grammar. -/
def splitOnPredChar (p : Char → Bool) : List Char → List (List Char)
  | [] => [[]]
  | c :: rest =>
    let r := splitOnPredChar p rest
    if p c then [] :: r
    else
      match r with
      | [] => [[c]]
      | h :: t => (c :: h) :: t

def splitOnDotL (cs : List Char) : List (List Char) :=
  splitOnPredChar (fun ch => ch == '.') cs

def isExpChar (ch : Char) : Bool := ch == 'e' || ch == 'E'

/-- Mantissa of a float literal: `digits`, `digits.digits`, `.digits` or
`digits.` (at least one digit overall), valued as an exact rational. -/
def parseMantissa (cs : List Char) : Option ℚ :=
  match splitOnDotL cs with
  | [ip] =>
    if !ip.isEmpty && allDigits ip then
      some (mkRat (Int.ofNat (digitsVal ip)) 1)
    else none
  | [ip, fp] =>
    if (!ip.isEmpty || !fp.isEmpty) && allDigits ip && allDigits fp then
      some (mkRat (Int.ofNat (digitsVal ip * 10 ^ fp.length + digitsVal fp)) (10 ^ fp.length))
    else none
  | _ => none

def parseExponent (cs : List Char) : Option Int :=
  let signAndDigits : Bool × List Char :=
    match cs with
    | '-' :: t => (true, t)
    | '+' :: t => (false, t)
    | t => (false, t)
  let eneg := signAndDigits.1
  let ds := signAndDigits.2
  if !ds.isEmpty && allDigits ds then
    some (if eneg then -(Int.ofNat (digitsVal ds)) else Int.ofNat (digitsVal ds))
  else none

def scaleByPow10 (v : ℚ) : Int → ℚ
  | Int.ofNat n => v * mkRat (Int.ofNat ((10 : Nat) ^ n)) 1
  | Int.negSucc n => v / mkRat (Int.ofNat ((10 : Nat) ^ (n + 1))) 1

/-- Python `float(s)` on decimal literals, as an exact rational; `none` models
a raised `ValueError`. -/
def pyFloat (s : String) : Option ℚ :=
  let cs := trimWs s.data
  let signAndBody : Bool × List Char :=
    match cs with
    | '-' :: t => (true, t)
    | '+' :: t => (false, t)
    | t => (false, t)
  let neg := signAndBody.1
  let body := signAndBody.2
  let signed : ℚ → ℚ := fun v => if neg then -v else v
  match splitOnPredChar isExpChar body with
  | [m] => (parseMantissa m).map signed
  | [m, ex] =>
    match parseMantissa m, parseExponent ex with
    | some v, some e => some (signed (scaleByPow10 v e))
    | _, _ => none
  | _ => none

/-! ## Locale-aware parsing (`init.py` lines 42-46 and 185-194)

`init.py` runs `locale.setlocale(LC_NUMERIC, "en_US.UTF-8")`, falling back to
the `"C"` locale when unavailable, so both possibilities are modelled. -/

inductive NumericLocale where
  | enUS
  | c
deriving Repr, DecidableEq

/-- Python `locale.delocalize`: under `en_US` the thousands separator `,` is
removed and the decimal point `.` is kept; under the `C` locale both
separators are empty/identity, so the string is unchanged. -/
def delocalize (loc : NumericLocale) (s : String) : String :=
  match loc with
  | .enUS => String.mk (s.data.filter (fun ch => ch != ','))
  | .c => s

/-- Python `locale.atof(s)` = `float(locale.delocalize(s))`. -/
def localeAtof (loc : NumericLocale) (s : String) : Option ℚ :=
  pyFloat (delocalize loc s)

/-- The price-normalization block of `summary` (`init.py` lines 185-194):
try `locale.atof`, and on `ValueError` retry `float` after substituting
`,` with `.`; `none` means both parses failed. -/
def normalizePrice (loc : NumericLocale) (price : String) : Option ℚ :=
  match localeAtof loc price with
  | some v => some v
  | none => pyFloat (String.mk (price.data.map (fun ch => if ch == ',' then '.' else ch)))

/-! ## Conversation state and user data (`init.py`) -/

/-- Conversation states, `CRYPTO_DESCRIPTION, SUMMARY, CRYPTO_SYMBOL,
CRYPTO_OPERATOR = range(4)` (`init.py` line 35). -/
def CRYPTO_DESCRIPTION : Int := 0

def SUMMARY : Int := 1

def CRYPTO_SYMBOL : Int := 2

def CRYPTO_OPERATOR : Int := 3

def ConversationHandler.END : Int := -1

/-- The keys of `context.user_data` used by the handlers; `none` models an
absent key or Python `None`. -/
structure UserData where
  symbol : Option String
  symbol1 : Option String
  symbol2 : Option String
  type : Option String
  operator : Option String
  price : Option String
  description : Option String
deriving Repr, DecidableEq

def emptyUserData : UserData :=
  { symbol := none, symbol1 := none, symbol2 := none, type := none,
    operator := none, price := none, description := none }

/-- Uncaught Python exceptions the handlers can raise. -/
inductive PyError where
  | keyError (key : String)
  | typeError
  | attributeError
deriving Repr, DecidableEq

/-- Python truthiness of an optional string, as used by
`all([symbol, operator, price, description])`: `None` and `""` are falsy. -/
def pyTruthy : Option String → Bool
  | none => false
  | some s => s != ""

/-! ## Handlers of the conversation (`init.py`) -/

/-- `crypto_symbol` (`init.py` lines 107-132): stores the message text as the
symbol, marks the draft as `"single"`, and moves to `CRYPTO_OPERATOR`. -/
def crypto_symbol (msgText : String) (d : UserData) : UserData × Int :=
  ({ d with symbol := some msgText, type := some "single" }, CRYPTO_OPERATOR)

/-- `createGmtAlert` (`init.py` lines 79-104): fixes the ratio pair GMT/GST and
moves to `CRYPTO_OPERATOR`. -/
def createGmtAlert (d : UserData) : UserData × Int :=
  ({ d with symbol1 := some "GMT", symbol := some "GMT/GST",
            symbol2 := some "GST", type := some "ratio" }, CRYPTO_OPERATOR)

/-- The `operator_map` dict of `crypto_operator` (`init.py` lines 141-146);
the values are the HTML-escaped display forms, as in the source. -/
def operator_map : List (String × String) :=
  [("greater", "&gt;"), ("lower", "&lt;"),
   ("greater_or_equal", "&gt;="), ("lower_or_equal", "&lt;=")]

/-- Python dict lookup `operator_map[query.data]` as an optional result. -/
def lookupToken (tok : String) : Option String :=
  (operator_map.find? (fun p => p.fst == tok)).map Prod.snd

/-- `crypto_operator` (`init.py` lines 135-155): the unguarded subscript
`operator_map[query.data]` raises `KeyError` for tokens outside the map;
otherwise the mapped value is stored and the state becomes
`CRYPTO_DESCRIPTION`. -/
def crypto_operator (callbackData : String) (d : UserData) : Except PyError (UserData × Int) :=
  match lookupToken callbackData with
  | none => .error (.keyError callbackData)
  | some op => .ok ({ d with operator := some op }, CRYPTO_DESCRIPTION)

/-- `crypto_description` (`init.py` lines 158-164): stores the message text as
the raw price string and moves to `SUMMARY`. -/
def crypto_description (msgText : String) (d : UserData) : UserData × Int :=
  ({ d with price := some msgText }, SUMMARY)

/-- The `operator.replace("&gt;", ">").replace("&lt;", "<")` step of `summary`
(`init.py` lines 212 and 237), via `strReplace` below. -/
def replaceAux (pat rep : List Char) : Nat → List Char → List Char
  | 0, cs => cs
  | fuel + 1, [] =>
    match fuel with
    | _ => []
  | fuel + 1, c :: rest =>
    if !pat.isEmpty && pat.isPrefixOf (c :: rest) then
      rep ++ replaceAux pat rep fuel ((c :: rest).drop pat.length)
    else
      c :: replaceAux pat rep fuel rest

/-- Python `s.replace(pat, rep)` for nonempty `pat`: leftmost, non-overlapping
replacement.  The fuel `s.length` suffices because every step consumes at
least one input character. -/
def strReplace (s pat rep : String) : String :=
  String.mk (replaceAux pat.data rep.data s.data.length s.data)

def unescapeOperator (op : String) : String :=
  strReplace (strReplace op "&gt;" ">") "&lt;" "<"

/-- The JSON payload `alert_data` built by `summary` (`init.py` lines 207-214
and 233-239): the ratio branch carries `symbol1`/`symbol2`, the single branch
carries `symbol`. -/
inductive AlertPayload where
  | single (type : Option String) (symbol : Option String) (price : ℚ)
      (operator : String) (description : Option String)
  | ratio (type : Option String) (symbol1 : Option String) (symbol2 : Option String)
      (price : ℚ) (operator : String) (description : Option String)
deriving Repr, DecidableEq

/-- Observable outcome of `summary`: the parse-failure reply ("❌ Invalid price
format"), the missing-field reply ("❌ Missing required information"), or a
gateway `create` call carrying the payload. -/
inductive SummaryOutcome where
  | invalidPrice
  | missingInfo
  | sent (payload : AlertPayload)
deriving Repr, DecidableEq

def gatewayCalls : SummaryOutcome → List AlertPayload
  | .sent p => [p]
  | _ => []

/-- Body of `summary` after the `description` store (`init.py` lines 176-254),
on the already-updated user data: parse the price (a `None` price raises
`TypeError` inside `locale.atof`, which `except ValueError` does not catch);
on parse failure reply and end; in the `"ratio"` branch build and send the
payload with no missing-field check (a `None` operator would raise
`AttributeError` at `.replace`); otherwise run the `all([...])` check and
either abort or send the single-symbol payload. -/
def summaryCore (loc : NumericLocale) (d2 : UserData) :
    Except PyError (UserData × SummaryOutcome × Int) :=
  match d2.price with
  | none => .error .typeError
  | some rawPrice =>
    match normalizePrice loc rawPrice with
    | none => .ok (d2, .invalidPrice, ConversationHandler.END)
    | some priceQ =>
      if d2.type == some "ratio" then
        match d2.operator with
        | none => .error .attributeError
        | some op =>
          .ok (d2, .sent (.ratio d2.type d2.symbol1 d2.symbol2 priceQ
                  (unescapeOperator op) d2.description), ConversationHandler.END)
      else
        match d2.operator with
        | none => .ok (d2, .missingInfo, ConversationHandler.END)
        | some op =>
          if pyTruthy d2.symbol && pyTruthy (some op) && pyTruthy d2.price
              && pyTruthy d2.description then
            .ok (d2, .sent (.single d2.type d2.symbol priceQ
                    (unescapeOperator op) d2.description), ConversationHandler.END)
          else
            .ok (d2, .missingInfo, ConversationHandler.END)

/-- `summary` (`init.py` lines 167-254).  The `SUMMARY` state is registered
with `filters.ALL` (line 423), so the incoming message may carry no text:
`update.message.text` is modelled as `Option String` and is stored as the
description before anything else, as in the source. -/
def summary (loc : NumericLocale) (msgText : Option String) (d : UserData) :
    Except PyError (UserData × SummaryOutcome × Int) :=
  summaryCore loc { d with description := msgText }

def outcomeOf : Except PyError (UserData × SummaryOutcome × Int) → Option SummaryOutcome
  | .error _ => none
  | .ok (_, out, _) => some out

def gatewayCallsOf : Except PyError (UserData × SummaryOutcome × Int) → List AlertPayload
  | .error _ => []
  | .ok (_, out, _) => gatewayCalls out

/-- The full single-symbol conversation, `/createalert` entry:
`crypto_symbol` → `crypto_operator` → `crypto_description` → `summary`. -/
def runSingleFlow (loc : NumericLocale) (symbolText opToken priceText : String)
    (descText : Option String) : Except PyError (UserData × SummaryOutcome × Int) :=
  let step1 := crypto_symbol symbolText emptyUserData
  match crypto_operator opToken step1.1 with
  | .error e => .error e
  | .ok step2 =>
    let step3 := crypto_description priceText step2.1
    summary loc descText step3.1

/-- The full ratio conversation, `/creategmtalert` entry:
`createGmtAlert` → `crypto_operator` → `crypto_description` → `summary`. -/
def runRatioFlow (loc : NumericLocale) (opToken priceText : String)
    (descText : Option String) : Except PyError (UserData × SummaryOutcome × Int) :=
  let step1 := createGmtAlert emptyUserData
  match crypto_operator opToken step1.1 with
  | .error e => .error e
  | .ok step2 =>
    let step3 := crypto_description priceText step2.1
    summary loc descText step3.1

def storedOperator (r : Except PyError (UserData × Int)) : Option String :=
  match r with
  | .ok du => du.1.operator
  | .error _ => none

/-! ## Alert gateway client (`init.py` lines 257-341) -/

/-- Outcome of one HTTP exchange as seen by the client: a response with a
status code, or a raised transport exception (connection error, timeout,
anything the blanket `except Exception` catches). -/
inductive HttpOutcome where
  | response (status : Nat)
  | raised
deriving Repr, DecidableEq

/-- `send_alert_request` (`init.py` lines 257-279): posts the payload and
returns `response.status == 200`; the blanket `except Exception` turns any
raised error into `False`, so the function is total. -/
def send_alert_request (data : AlertPayload) (outcome : HttpOutcome) : Bool :=
  match data, outcome with
  | _, .response status => status == 200
  | _, .raised => false

/-- `delete_alert` (`init.py` lines 321-341): same contract as
`send_alert_request`, on the `{"guid": alert_id}` body. -/
def delete_alert (alert_id : String) (outcome : HttpOutcome) : Bool :=
  match alert_id, outcome with
  | _, .response status => status == 200
  | _, .raised => false

/-- A stored alert as decoded from the list endpoint's JSON. -/
structure Alert where
  guid : String
  symbol : String
  price : ℚ
  operator : String
  description : String
deriving Repr, DecidableEq

/-- Outcome of the list request: a raised transport exception, or a response
with a status and — when the body is valid JSON — its decoded alerts
(`none` body models a `json()` decode failure, which the blanket
`except Exception` also catches). -/
inductive FetchOutcome where
  | raised
  | response (status : Nat) (body : Option (List Alert))
deriving Repr, DecidableEq

/-- `get_all_alerts` (`init.py` lines 282-300): the decoded body on HTTP 200,
`[]` on any non-200 status, raised transport error, or body decode failure. -/
def get_all_alerts : FetchOutcome → List Alert
  | .raised => []
  | .response status body =>
    if status == 200 then
      match body with
      | some alerts => alerts
      | none => []
    else []

/-! ## Steady-state conflict handling (`init.py` lines 397-403) -/

inductive BotError where
  | conflict
  | otherError
deriving Repr, DecidableEq

/-- Observable actions of `error_handler`. -/
inductive HandlerAction where
  | logUpdateError
  | logConflictShutdown
  | stopApplication
  | exitProcess (code : Nat)
deriving Repr, DecidableEq

/-- `error_handler` (`init.py` lines 397-403): always logs the failing update;
when the error is a `telegram.error.Conflict` it additionally logs the
shutdown notice, stops the application, and calls `sys.exit(1)`. -/
def error_handler : BotError → List HandlerAction
  | .conflict => [.logUpdateError, .logConflictShutdown, .stopApplication, .exitProcess 1]
  | .otherError => [.logUpdateError]

/-! ## Conflict-recovery CLI (`telegram_conflict_breaker.py`)

The Telegram side is modelled by a script: the response each successive
`getUpdates` poll of the main loop receives.  A missing script entry models a
network error (`make_telegram_request` returning `None`). -/

/-- Response to one main-loop `getUpdates` poll. -/
inductive TgResponse where
  | netError
  | ok (updates : List Nat)
  | okBadJson
  | conflict
  | otherStatus (status : Nat)
deriving Repr, DecidableEq

/-- Requests and waits the script performs, in order. -/
inductive TgAction where
  | deleteWebhook (dropPendingUpdates : Bool)
  | poll
  | ack (offset : Nat)
  | sleep (seconds : Nat)
deriving Repr, DecidableEq

/-- `max(update['update_id'] for update in updates)` over `Nat` ids; the
source evaluates it only on a nonempty list. -/
def maxUpdateId (us : List Nat) : Nat := us.foldl max 0

/-- The `for attempt in range(1, max_attempts + 1)` loop of
`break_bot_conflicts` (`telegram_conflict_breaker.py` lines 53-104), with the
remaining attempt count as the recursion measure.  A network error, a
JSON-decode failure on a 200 response, and an unexpected status all fall
through to the next attempt; a 409 sleeps 2 seconds first; a 200 response
acknowledges a nonempty batch with offset one past its highest id (the ack
response itself is ignored by the source) and returns success. -/
def runAttempts : List TgResponse → Nat → List TgAction × Bool
  | _, 0 => ([], false)
  | [], n + 1 =>
    let continued := runAttempts [] n
    (TgAction.poll :: continued.1, continued.2)
  | TgResponse.netError :: rest, n + 1 =>
    let continued := runAttempts rest n
    (TgAction.poll :: continued.1, continued.2)
  | TgResponse.ok us :: _, _ + 1 =>
    if us.isEmpty then ([TgAction.poll], true)
    else ([TgAction.poll, TgAction.ack (maxUpdateId us + 1)], true)
  | TgResponse.okBadJson :: rest, n + 1 =>
    let continued := runAttempts rest n
    (TgAction.poll :: continued.1, continued.2)
  | TgResponse.conflict :: rest, n + 1 =>
    let continued := runAttempts rest n
    (TgAction.poll :: TgAction.sleep 2 :: continued.1, continued.2)
  | TgResponse.otherStatus _ :: rest, n + 1 =>
    let continued := runAttempts rest n
    (TgAction.poll :: continued.1, continued.2)

/-- `break_bot_conflicts(token, max_attempts=20)` (lines 35-104): deletes the
webhook with `drop_pending_updates=True`, then runs the attempt loop; returns
the performed actions and the success flag. -/
def break_bot_conflicts (script : List TgResponse) (maxAttempts : Nat) : List TgAction × Bool :=
  let looped := runAttempts script maxAttempts
  (TgAction.deleteWebhook true :: looped.1, looped.2)

/-- `main` of `telegram_conflict_breaker.py` (lines 106-135) as its process
exit code: `sys.exit(1)` only when no token is available; otherwise the
result of `break_bot_conflicts` is only printed, the function returns
normally, and the process exits 0. -/
def cliMain (tokenPresent : Bool) (script : List TgResponse) : Nat :=
  if tokenPresent then
    let result := break_bot_conflicts script 20
    let _ := result.2
    0
  else 1

def isPoll : TgAction → Bool
  | .poll => true
  | _ => false

def countPolls (actions : List TgAction) : Nat := actions.countP isPoll

/-! ## Claim theorems -/

/-- C6: for every payload and every alert identifier, `send_alert_request`
(the gateway create) and `delete_alert` each return `true` if and only if the
remote service responds with HTTP status 200; a raised transport error or any
non-success status yields `false`.  Both functions are total, so no exception
reaches the caller. -/
theorem createDeleteAlertSuccessIffHttp200 (data : AlertPayload) (alert_id : String)
    (outcome : HttpOutcome) :
    (send_alert_request data outcome = true ↔ outcome = HttpOutcome.response 200)
    ∧ (delete_alert alert_id outcome = true ↔ outcome = HttpOutcome.response 200) := by
  cases outcome with
  | response status =>
    simp [send_alert_request, delete_alert]
  | raised =>
    simp [send_alert_request, delete_alert]

/-- C7: `get_all_alerts` returns the decoded alert list exactly when the
response has HTTP status 200 (with a decodable body), returns `[]` on any
raised transport error or non-200 status such as HTTP 500, and therefore maps
a genuinely empty alert store and a failed fetch to the same value. -/
theorem getAllAlertsContract :
    (∀ alerts : List Alert, get_all_alerts (FetchOutcome.response 200 (some alerts)) = alerts)
    ∧ (∀ (status : Nat) (body : Option (List Alert)), status ≠ 200 →
        get_all_alerts (FetchOutcome.response status body) = [])
    ∧ get_all_alerts FetchOutcome.raised = []
    ∧ get_all_alerts (FetchOutcome.response 500 none)
        = get_all_alerts (FetchOutcome.response 200 (some [])) := by
  refine ⟨fun alerts => rfl, fun status body h => ?_, rfl, by decide⟩
  simp [get_all_alerts, h]

/-- Witness for C7 at the simulated HTTP 500 of the spec. -/
theorem getAllAlertsContract_witness :
    get_all_alerts (FetchOutcome.response 500 none) = [] :=
  getAllAlertsContract.2.1 500 none (by decide)

/-- C9: on a channel-conflict error during steady-state operation,
`error_handler` logs the condition, stops the application, and terminates the
process with exit status 1; its action list contains nothing but logging,
the stop, and the non-zero exit — no in-process recovery.  Any other error is
only logged. -/
theorem steadyStateConflictFatal :
    error_handler BotError.conflict =
      [HandlerAction.logUpdateError, HandlerAction.logConflictShutdown,
       HandlerAction.stopApplication, HandlerAction.exitProcess 1]
    ∧ error_handler BotError.otherError = [HandlerAction.logUpdateError] := by
  exact ⟨rfl, rfl⟩

/-- C10: `crypto_operator` is a partial function of the callback token: each
of the four operator tokens succeeds through the unguarded `operator_map`
subscript and stores the mapped value, while any token outside the map (such
as a `delete_...` button token arriving in the operator-awaiting state) makes
the handler raise an unhandled `KeyError` instead of ignoring the event. -/
theorem cryptoOperatorPartialLookup (d : UserData) :
    crypto_operator "greater" d
      = Except.ok ({ d with operator := some "&gt;" }, CRYPTO_DESCRIPTION)
    ∧ crypto_operator "lower" d
      = Except.ok ({ d with operator := some "&lt;" }, CRYPTO_DESCRIPTION)
    ∧ crypto_operator "greater_or_equal" d
      = Except.ok ({ d with operator := some "&gt;=" }, CRYPTO_DESCRIPTION)
    ∧ crypto_operator "lower_or_equal" d
      = Except.ok ({ d with operator := some "&lt;=" }, CRYPTO_DESCRIPTION)
    ∧ ∀ tok : String,
        tok ∉ ["greater", "lower", "greater_or_equal", "lower_or_equal"] →
        crypto_operator tok d = Except.error (PyError.keyError tok) := by
  refine ⟨rfl, rfl, rfl, rfl, fun tok h => ?_⟩
  simp only [List.mem_cons, List.not_mem_nil, or_false, not_or] at h
  obtain ⟨h1, h2, h3, h4⟩ := h
  have e1 : (("greater" : String) == tok) = false := beq_eq_false_iff_ne.mpr (Ne.symm h1)
  have e2 : (("lower" : String) == tok) = false := beq_eq_false_iff_ne.mpr (Ne.symm h2)
  have e3 : (("greater_or_equal" : String) == tok) = false := beq_eq_false_iff_ne.mpr (Ne.symm h3)
  have e4 : (("lower_or_equal" : String) == tok) = false := beq_eq_false_iff_ne.mpr (Ne.symm h4)
  simp [crypto_operator, lookupToken, operator_map, List.find?, e1, e2, e3, e4]

/-- Witness for C10 at a delete-alert button token in the operator-awaiting
state. -/
theorem cryptoOperatorPartialLookup_witness :
    crypto_operator "delete_42" emptyUserData
      = Except.error (PyError.keyError "delete_42") :=
  (cryptoOperatorPartialLookup emptyUserData).2.2.2.2 "delete_42" (by decide)

/-- C3 counterexample: after the operator-selection step for token `greater`,
the value stored on the session is the HTML-escaped `"&gt;"`, not the
canonical `">"` the claim requires. -/
theorem storedOperatorEscapedCounterexample :
    storedOperator (crypto_operator "greater" emptyUserData) = some "&gt;"
    ∧ ("&gt;" : String) ≠ ">" := by
  exact ⟨rfl, by decide⟩

/-- C3 amended: for every operator token in the map, the value stored on the
draft after the operator-selection step is the HTML-escaped display form
(`&gt;`, `&lt;`, `&gt;=`, `&lt;=`); the escaping is reversed by `summary`'s
`unescapeOperator` before transmission, so the operator the gateway sees is
the canonical comparison symbol. -/
theorem operatorEscapedStoredThenUnescaped (d : UserData) :
    (storedOperator (crypto_operator "greater" d) = some "&gt;"
      ∧ unescapeOperator "&gt;" = ">")
    ∧ (storedOperator (crypto_operator "lower" d) = some "&lt;"
      ∧ unescapeOperator "&lt;" = "<")
    ∧ (storedOperator (crypto_operator "greater_or_equal" d) = some "&gt;="
      ∧ unescapeOperator "&gt;=" = ">=")
    ∧ (storedOperator (crypto_operator "lower_or_equal" d) = some "&lt;="
      ∧ unescapeOperator "&lt;=" = "<=") := by
  exact ⟨⟨rfl, rfl⟩, ⟨rfl, rfl⟩, ⟨rfl, rfl⟩, ⟨rfl, rfl⟩⟩

/-- C1 counterexample: with the locale the source actually sets (en_US, or C
as its fallback), the conversation with symbol `BTC`, token `greater`, price
string `"45 000,50"` and description `breakout` does not normalize the price:
both the locale-aware parse and the comma-to-dot fallback reject the internal
space, so the flow ends with the invalid-price reply and the gateway receives
no payload at all. -/
theorem spacedCommaPriceFailsCounterexample :
    outcomeOf (runSingleFlow NumericLocale.enUS "BTC" "greater" "45 000,50" (some "breakout"))
      = some SummaryOutcome.invalidPrice
    ∧ outcomeOf (runSingleFlow NumericLocale.c "BTC" "greater" "45 000,50" (some "breakout"))
      = some SummaryOutcome.invalidPrice
    ∧ gatewayCallsOf
        (runSingleFlow NumericLocale.enUS "BTC" "greater" "45 000,50" (some "breakout")) = []
    ∧ gatewayCallsOf
        (runSingleFlow NumericLocale.c "BTC" "greater" "45 000,50" (some "breakout")) = [] := by
  decide

/-- C1 amended: for the full conversation with symbol `BTC`, token `greater`,
price string `"45000.50"` and description `breakout`, under either locale the
normalized price is 45000.50, the operator is canonicalized to `>`, and the
gateway create receives exactly the single-kind payload
`{type: "single", symbol: "BTC", price: 45000.50, operator: ">",
description: "breakout"}`. -/
theorem singleFlowDotDecimalPayload (loc : NumericLocale) :
    outcomeOf (runSingleFlow loc "BTC" "greater" "45000.50" (some "breakout"))
      = some (SummaryOutcome.sent (AlertPayload.single (some "single") (some "BTC")
          (mkRat 90001 2) ">" (some "breakout")))
    ∧ mkRat 90001 2 = (45000.5 : ℚ) := by
  constructor
  · cases loc with
    | enUS => decide
    | c => decide
  · rw [Rat.mkRat_eq_div]; norm_num

/-- C2 counterexample: the ratio flow reaches the final transition with the
description missing (the `SUMMARY` state accepts non-text messages through
`filters.ALL`, leaving `update.message.text` as `None`), and the gateway
create is still invoked, with a `None` description in the payload — the
missing-field guard exists only in the single-symbol branch of `summary`. -/
theorem ratioFlowSendsWithMissingDescription :
    outcomeOf (runRatioFlow NumericLocale.enUS "greater" "100" none)
      = some (SummaryOutcome.sent (AlertPayload.ratio (some "ratio") (some "GMT") (some "GST")
          (100 : ℚ) ">" none))
    ∧ gatewayCallsOf (runRatioFlow NumericLocale.enUS "greater" "100" none)
      = [AlertPayload.ratio (some "ratio") (some "GMT") (some "GST") (100 : ℚ) ">" none] := by
  decide

/-- C2 amended: only the single-symbol branch of `summary` enforces the
required-field check: whenever the draft is not marked `"ratio"` and at least
one of symbol, operator, price, description is missing or empty at the final
transition, `summary` makes no gateway call.  (The ratio branch has no such
guard, see the counterexample.) -/
theorem singleFlowMissingFieldAborts (loc : NumericLocale) (msgText : Option String)
    (d : UserData) (hType : (d.type == some "ratio") = false)
    (hMissing : (pyTruthy d.symbol && pyTruthy d.operator
        && pyTruthy d.price && pyTruthy msgText) = false) :
    gatewayCallsOf (summary loc msgText d) = [] := by
  cases hp : d.price with
  | none => simp [summary, summaryCore, gatewayCallsOf, hp]
  | some raw =>
    cases hn : normalizePrice loc raw with
    | none => simp [summary, summaryCore, gatewayCallsOf, gatewayCalls, hp, hn]
    | some q =>
      cases ho : d.operator with
      | none =>
        simp [summary, summaryCore, gatewayCallsOf, gatewayCalls, hp, hn, ho, hType]
      | some op =>
        rw [hp, ho] at hMissing
        simp [summary, summaryCore, gatewayCallsOf, gatewayCalls, hp, hn, ho, hType, hMissing]

/-- Witness for C2 (amended): a single-kind draft whose symbol is missing is
not sent. -/
theorem singleFlowMissingFieldAborts_witness :
    gatewayCallsOf (summary NumericLocale.enUS (some "note")
      { emptyUserData with operator := some "&gt;", price := some "100" }) = [] :=
  singleFlowMissingFieldAborts NumericLocale.enUS (some "note")
    { emptyUserData with operator := some "&gt;", price := some "100" }
    (by decide) (by decide)

/-- C4: whenever the stored raw price string is rejected by both the
locale-aware parse and the comma-to-dot fallback, `summary` stores the
description, replies with the invalid-price message, ends the conversation
(`ConversationHandler.END`), and performs zero gateway calls. -/
theorem unparsablePriceAbortsNoGateway (loc : NumericLocale) (msgText : Option String)
    (d : UserData) (raw : String) (hp : d.price = some raw)
    (hn : normalizePrice loc raw = none) :
    summary loc msgText d
      = Except.ok ({ d with description := msgText }, SummaryOutcome.invalidPrice,
          ConversationHandler.END)
    ∧ gatewayCallsOf (summary loc msgText d) = [] := by
  have h1 : summary loc msgText d
      = Except.ok ({ d with description := msgText }, SummaryOutcome.invalidPrice,
          ConversationHandler.END) := by
    simp [summary, summaryCore, hp, hn]
  exact ⟨h1, by rw [h1]; rfl⟩

/-- A fully collected single-kind draft whose raw price string `"abc"` is
unparsable. -/
def badPriceDraft : UserData :=
  { emptyUserData with
      symbol := some "BTC", type := some "single",
      operator := some "&gt;", price := some "abc" }

/-- Witness for C4 at the unparsable price string `"abc"`. -/
theorem unparsablePriceAbortsNoGateway_witness :
    summary NumericLocale.enUS (some "note") badPriceDraft
      = Except.ok ({ badPriceDraft with description := some "note" },
          SummaryOutcome.invalidPrice, ConversationHandler.END)
    ∧ gatewayCallsOf (summary NumericLocale.enUS (some "note") badPriceDraft) = [] :=
  unparsablePriceAbortsNoGateway NumericLocale.enUS (some "note") badPriceDraft
    "abc" rfl (by decide)

/-- C5 counterexample: when the attempt budget is exhausted without
resolution (twenty consecutive conflict responses), `break_bot_conflicts`
reports failure, yet `main` only prints and returns, so the process exit
status is 0, not non-zero. -/
theorem cliExitsZeroOnExhaustionCounterexample :
    (break_bot_conflicts (List.replicate 20 TgResponse.conflict) 20).2 = false
    ∧ cliMain true (List.replicate 20 TgResponse.conflict) = 0 := by
  decide

/-- C5 amended: the conflict-recovery CLI exits 0 when the conflict is
resolved, but it also exits 0 when the attempt budget is exhausted — the exit
status never depends on the recovery outcome; the only non-zero exit is the
missing-token path. -/
theorem cliExitCodeIndependentOfResolution (tokenPresent : Bool)
    (script : List TgResponse) :
    cliMain tokenPresent script = if tokenPresent then 0 else 1 := by
  cases tokenPresent <;> rfl

/-! ## Facts about the arbiter loop, for C8 -/

theorem foldlMaxUpper (us : List Nat) :
    ∀ a : Nat, a ≤ us.foldl max a ∧ ∀ x ∈ us, x ≤ us.foldl max a := by
  induction us with
  | nil =>
    intro a
    exact ⟨Nat.le_refl a, by intro x hx; cases hx⟩
  | cons u t ih =>
    intro a
    have h := ih (max a u)
    refine ⟨?_, ?_⟩
    · rw [List.foldl_cons]
      exact Nat.le_trans (le_max_left a u) h.1
    · intro x hx
      rw [List.foldl_cons]
      rcases List.mem_cons.mp hx with rfl | hx2
      · exact Nat.le_trans (le_max_right a x) h.1
      · exact h.2 x hx2

theorem foldlMaxMem (us : List Nat) :
    ∀ a : Nat, us.foldl max a = a ∨ us.foldl max a ∈ us := by
  induction us with
  | nil => intro a; exact Or.inl rfl
  | cons u t ih =>
    intro a
    rw [List.foldl_cons]
    rcases ih (max a u) with h | h
    · rw [h]
      rcases max_choice a u with h2 | h2
      · exact Or.inl h2
      · rw [h2]; exact Or.inr (List.mem_cons_self u t)
    · exact Or.inr (List.mem_cons_of_mem u h)

/-- `maxUpdateId` of a nonempty batch is its highest event identifier. -/
theorem maxUpdateIdSpec (us : List Nat) (h : us ≠ []) :
    maxUpdateId us ∈ us ∧ ∀ x ∈ us, x ≤ maxUpdateId us := by
  refine ⟨?_, (foldlMaxUpper us 0).2⟩
  rcases foldlMaxMem us 0 with h0 | hm
  · cases us with
    | nil => exact absurd rfl h
    | cons u t =>
      have hu : u ≤ maxUpdateId (u :: t) :=
        (foldlMaxUpper (u :: t) 0).2 u (List.mem_cons_self u t)
      unfold maxUpdateId at hu ⊢
      rw [h0] at hu
      have hu0 : u = 0 := Nat.le_zero.mp hu
      rw [h0, ← hu0]
      exact List.mem_cons_self u t
  · exact hm

/-- The main loop performs at most as many polls as it has attempts left. -/
theorem runAttemptsPollBound (n : Nat) :
    ∀ script : List TgResponse, countPolls (runAttempts script n).1 ≤ n := by
  induction n with
  | zero => intro script; simp [runAttempts, countPolls]
  | succ m ih =>
    intro script
    match script with
    | [] =>
      have hb := ih []
      simp only [countPolls] at hb
      simp [runAttempts, countPolls, List.countP_cons, isPoll]
      omega
    | TgResponse.netError :: rest =>
      have hb := ih rest
      simp only [countPolls] at hb
      simp [runAttempts, countPolls, List.countP_cons, isPoll]
      omega
    | TgResponse.ok us :: rest =>
      cases hus : us.isEmpty with
      | true =>
        simp [runAttempts, hus, countPolls, List.countP_cons, List.countP_nil, isPoll]
      | false =>
        simp [runAttempts, hus, countPolls, List.countP_cons, List.countP_nil, isPoll]
    | TgResponse.okBadJson :: rest =>
      have hb := ih rest
      simp only [countPolls] at hb
      simp [runAttempts, countPolls, List.countP_cons, isPoll]
      omega
    | TgResponse.conflict :: rest =>
      have hb := ih rest
      simp only [countPolls] at hb
      simp [runAttempts, countPolls, List.countP_cons, isPoll]
      omega
    | TgResponse.otherStatus s :: rest =>
      have hb := ih rest
      simp only [countPolls] at hb
      simp [runAttempts, countPolls, List.countP_cons, isPoll]
      omega

/-- C8: in the arbiter's pre-flight loop, (a) a successful poll that returns a
nonempty batch of pending events is followed by exactly one acknowledgement
request whose offset is one past the batch's highest event identifier (and
`maxUpdateId` really is that highest identifier), after which the loop
reports success; (b) a conflict status makes the loop sleep the fixed
2-second backoff before the remaining attempts continue; (c) the loop never
performs more polls than the bounded attempt count. -/
theorem arbiterAckBackoffBound (us : List Nat) (rest : List TgResponse) (n : Nat) :
    (us ≠ [] →
      runAttempts (TgResponse.ok us :: rest) (n + 1)
        = ([TgAction.poll, TgAction.ack (maxUpdateId us + 1)], true)
      ∧ maxUpdateId us ∈ us ∧ ∀ x ∈ us, x ≤ maxUpdateId us)
    ∧ runAttempts (TgResponse.conflict :: rest) (n + 1)
        = (TgAction.poll :: TgAction.sleep 2 :: (runAttempts rest n).1,
           (runAttempts rest n).2)
    ∧ ∀ script : List TgResponse, countPolls (runAttempts script n).1 ≤ n := by
  refine ⟨fun h => ?_, rfl, runAttemptsPollBound n⟩
  have hne : us.isEmpty = false := by
    cases us with
    | nil => exact absurd rfl h
    | cons a t => rfl
  refine ⟨?_, maxUpdateIdSpec us h⟩
  simp [runAttempts, hne]

/-- Witness for C8: a successful poll returning ids 3, 7, 5 acknowledges with
offset 8. -/
theorem arbiterAckBackoffBound_witness :
    runAttempts [TgResponse.ok [3, 7, 5]] 1
      = ([TgAction.poll, TgAction.ack (maxUpdateId [3, 7, 5] + 1)], true)
    ∧ maxUpdateId [3, 7, 5] ∈ [3, 7, 5] :=
  ⟨((arbiterAckBackoffBound [3, 7, 5] [] 0).1 (by decide)).1,
   ((arbiterAckBackoffBound [3, 7, 5] [] 0).1 (by decide)).2.1⟩
